import Mathlib

/-!
Shallow embedding of `src/cray/modules/cfs/cli.py` (craycli CFS module).

The module patches an auto-generated CLI command tree:
  * `create_configurations_shim` (lines 58-73): branches on `--file` /
    `--update-branches` for `configurations update`;
  * `_targets_callback` (lines 120-133): parses repeated `--target-group`
    options for `sessions create`;
  * `create_sessions_shim` (lines 162-174): assembles the `sessions create`
    payload with a composite `target` field;
  * `create_components_shim` (lines 183-193): assembles the
    `components update` payload with a JSON-decoded `state` field;
  * line 117: `del cli.commands['sessions'].commands['update']`.

Python values that can appear in payloads are embedded as `PyVal`; Python
dicts become association lists with insertion-order-preserving assignment
(`dictSet`), matching CPython dict semantics.  Exceptions raised by the
shims become `Except PyErr`.  `json.loads` (Python standard library,
external to the repository) is embedded as `jsonLoads`, a recursive-descent
reader of the JSON fragment the module actually feeds it (null, booleans,
integers, strings, arrays, objects); malformed input yields an error value,
mirroring `json.JSONDecodeError`.
-/

namespace Cfs

/-- Embedding of the Python values this module stores in payloads:
`None`, booleans, integers, strings, lists and dicts. -/
inductive PyVal where
  | none : PyVal
  | bool : Bool → PyVal
  | int : Int → PyVal
  | str : String → PyVal
  | list : List PyVal → PyVal
  | dict : List (String × PyVal) → PyVal

/-- Python truthiness (`if x:`) for the embedded values: `None` is falsy,
numbers are truthy iff nonzero, strings/lists/dicts iff nonempty. -/
def PyVal.truthy : PyVal → Bool
  | .none => false
  | .bool b => b
  | .int n => n != 0
  | .str s => s ≠ ""
  | .list xs => !xs.isEmpty
  | .dict fields => !fields.isEmpty

/-- Whether the value is Python `None` (the `is not None` test negated). -/
def PyVal.isNone : PyVal → Bool
  | .none => true
  | _ => false

/-- String content of a value known to be a Python string (the shims only
apply this to values of `type=str` options). -/
def PyVal.asStr : PyVal → String
  | .str s => s
  | _ => ""

/-- Python dict lookup `d[k]` on an insertion-ordered association list,
returning `none` when the key is absent. -/
def dictGet {α : Type} : List (String × α) → String → Option α
  | [], _ => Option.none
  | (k0, v0) :: rest, k => if k0 = k then some v0 else dictGet rest k

/-- Python dict assignment `d[k] = v`: overwrites in place when the key is
present (keeping its position), otherwise appends at the end, as CPython
dicts do. -/
def dictSet {α : Type} : List (String × α) → String → α → List (String × α)
  | [], k, v => [(k, v)]
  | (k0, v0) :: rest, k, v =>
      if k0 = k then (k0, v) :: rest else (k0, v0) :: dictSet rest k v

/-- Removal of a key from a dict (the effect of a successful `del d[k]`;
dict keys are unique, so dropping every binding of the key coincides with
CPython's removal of the one entry). -/
def dictRemove {α : Type} : List (String × α) → String → List (String × α)
  | [], _ => []
  | (k0, v0) :: rest, k =>
      if k0 = k then dictRemove rest k else (k0, v0) :: dictRemove rest k

/-- Exceptions the embedded shims can raise: `json.JSONDecodeError` from
`json.loads`, `KeyError` from `del`, and a plain `Exception(msg)`. -/
inductive PyErr where
  | jsonDecodeError : String → PyErr
  | keyError : String → PyErr
  | exn : String → PyErr

/-- Python `del d[k]`: removes the key, raising `KeyError` when absent. -/
def pyDel {α : Type} (d : List (String × α)) (k : String) :
    Except PyErr (List (String × α)) :=
  match dictGet d k with
  | some _ => .ok (dictRemove d k)
  | Option.none => .error (.keyError k)

/-- The `{name, value}` wrapper every parsed option value is normalized to.

Modelled from the spec: `_opt_callback` lives in `cray.generator`, outside
this module; section 4.4 of the design describes its output as
`\x7bname: <payload_name>, value: <parsed_value_or_None>\x7d`. -/
structure Opt where
  name : String
  value : PyVal

/-- The keyword arguments a shim receives: a Python dict mapping parameter
names to the `\x7bname, value\x7d` wrappers. -/
abbrev Kwargs : Type := List (String × Opt)

/-- Sentinel key under which a shim smuggles its pre-built payload to the
generated callback.  Modelled from the spec: `FROM_FILE_TAG` is imported
from `cray.constants`, outside this module; its exact text is irrelevant
here, only that it is a fixed tag. -/
def FROM_FILE_TAG : String := "from_file"

/-- One step of the payload dict comprehension: a `None` value is skipped,
any other value is entered under its payload name. -/
def payloadStep (acc : List (String × PyVal)) (p : String × Opt) :
    List (String × PyVal) :=
  if (Prod.snd p).value.isNone then acc
  else dictSet acc (Prod.snd p).name (Prod.snd p).value

/-- The dict comprehension shared by the sessions and components shims:
`\x7bv['name']: v['value'] for _, v in kwargs.items() if v['value'] is not None\x7d`. -/
def payloadOfKwargs (kwargs : Kwargs) : List (String × PyVal) :=
  List.foldl payloadStep [] kwargs

/-- Whitespace characters for Python `str.strip()`. -/
def isPySpace (c : Char) : Bool :=
  c = ' ' ∨ c = '\t' ∨ c = '\n' ∨ c = '\r' ∨ c = '\x0b' ∨ c = '\x0c'

/-- Removal of leading whitespace characters. -/
def dropSpaces : List Char → List Char
  | [] => []
  | c :: cs => if isPySpace c then dropSpaces cs else c :: cs

/-- Python `str.strip()`: whitespace removed from both ends. -/
def pyStrip (s : String) : String :=
  String.mk (List.reverse (dropSpaces (List.reverse (dropSpaces s.data))))

/-- Split on a separator character; the empty input yields one empty
field, as in Python, where `''.split(',') == ['']`. -/
def splitOnChar (sep : Char) : List Char → List (List Char)
  | [] => [[]]
  | c :: cs =>
      match splitOnChar sep cs with
      | [] => if c = sep then [[], []] else [[c]]
      | g :: gs => if c = sep then [] :: g :: gs else (c :: g) :: gs

/-- Python `s.split(',')`. -/
def pySplitCommas (s : String) : List String :=
  (splitOnChar ',' s.data).map String.mk

/-- Leading JSON whitespace removal. -/
def skipWs : List Char → List Char
  | [] => []
  | c :: cs =>
      if c = ' ' ∨ c = '\t' ∨ c = '\n' ∨ c = '\r' then skipWs cs else c :: cs

/-- Body of a JSON string after the opening quote: returns the decoded
characters and the input after the closing quote.  Escape sequences map
`\n`, `\t`, `\r`, `\"`, `\\` and `\/`; other escaped characters pass
through (sufficient for the inputs this module feeds `json.loads`). -/
def readStrChars : List Char → Except String (List Char × List Char)
  | [] => .error "Unterminated string starting at"
  | c :: rest =>
      if c = '"' then .ok ([], rest)
      else if c = '\\' then
        match rest with
        | [] => .error "Unterminated string starting at"
        | e :: rest2 =>
            let d : Char :=
              if e = 'n' then '\n'
              else if e = 't' then '\t'
              else if e = 'r' then '\r'
              else e
            match readStrChars rest2 with
            | .ok (cs, rem) => .ok (d :: cs, rem)
            | .error msg => .error msg
      else
        match readStrChars rest with
        | .ok (cs, rem) => .ok (c :: cs, rem)
        | .error msg => .error msg

/-- Longest leading run of decimal digits. -/
def readDigits : List Char → (List Char × List Char)
  | [] => ([], [])
  | c :: cs =>
      if c.isDigit then
        let p := readDigits cs
        (c :: p.1, p.2)
      else ([], c :: cs)

/-- Numeric value of a digit run. -/
def digitsToNat (ds : List Char) : Nat :=
  List.foldl (fun a c => a * 10 + (c.toNat - 48)) 0 ds

mutual

/-- One JSON value (null, boolean, integer, string, array or object) from
the head of the input, fuel-bounded; returns the value and the rest. -/
def readJson : Nat → List Char → Except String (PyVal × List Char)
  | 0, _ => .error "Expecting value"
  | fuel + 1, cs =>
      match skipWs cs with
      | [] => .error "Expecting value"
      | c :: rest =>
          if c = 'n' then
            match rest with
            | 'u' :: 'l' :: 'l' :: rem => .ok (.none, rem)
            | _ => .error "Expecting value"
          else if c = 't' then
            match rest with
            | 'r' :: 'u' :: 'e' :: rem => .ok (.bool true, rem)
            | _ => .error "Expecting value"
          else if c = 'f' then
            match rest with
            | 'a' :: 'l' :: 's' :: 'e' :: rem => .ok (.bool false, rem)
            | _ => .error "Expecting value"
          else if c = '"' then
            match readStrChars rest with
            | .ok (body, rem) => .ok (.str (String.mk body), rem)
            | .error msg => .error msg
          else if c = '-' then
            match readDigits rest with
            | ([], _) => .error "Expecting value"
            | (ds, rem) => .ok (.int (-(digitsToNat ds : Int)), rem)
          else if c.isDigit then
            match readDigits (c :: rest) with
            | (ds, rem) => .ok (.int (digitsToNat ds : Int), rem)
          else if c = '[' then
            match skipWs rest with
            | ']' :: rem => .ok (.list [], rem)
            | other => readArrayItems fuel other []
          else if c = '\x7b' then
            match skipWs rest with
            | '\x7d' :: rem => .ok (.dict [], rem)
            | other => readObjectItems fuel other []
          else .error "Expecting value"

/-- Comma-separated array items up to the closing bracket, accumulating in
order. -/
def readArrayItems : Nat → List Char → List PyVal →
    Except String (PyVal × List Char)
  | 0, _, _ => .error "Expecting value"
  | fuel + 1, cs, acc =>
      match readJson fuel cs with
      | .error msg => .error msg
      | .ok (v, rem) =>
          match skipWs rem with
          | ',' :: rem2 => readArrayItems fuel rem2 (acc ++ [v])
          | ']' :: rem2 => .ok (.list (acc ++ [v]), rem2)
          | _ => .error "Expecting ',' delimiter"

/-- Comma-separated `"key": value` members up to the closing brace,
accumulating in order. -/
def readObjectItems : Nat → List Char → List (String × PyVal) →
    Except String (PyVal × List Char)
  | 0, _, _ => .error "Expecting value"
  | fuel + 1, cs, acc =>
      match skipWs cs with
      | '"' :: rest =>
          match readStrChars rest with
          | .error msg => .error msg
          | .ok (key, rem) =>
              match skipWs rem with
              | ':' :: rem2 =>
                  match readJson fuel rem2 with
                  | .error msg => .error msg
                  | .ok (v, rem3) =>
                      let acc2 := acc ++ [(String.mk key, v)]
                      match skipWs rem3 with
                      | ',' :: rem4 => readObjectItems fuel rem4 acc2
                      | '\x7d' :: rem4 => .ok (.dict acc2, rem4)
                      | _ => .error "Expecting ',' delimiter"
              | _ => .error "Expecting ':' delimiter"
      | _ => .error "Expecting property name enclosed in double quotes"

end

/-- Embedding of Python `json.loads` for the JSON fragment this module
uses; the whole input must be one document, trailing non-whitespace is the
`Extra data` error, and a failure carries the decode error message. -/
def jsonLoads (s : String) : Except String PyVal :=
  match readJson (s.length + 1) s.data with
  | .error msg => .error msg
  | .ok (v, rest) =>
      match skipWs rest with
      | [] => .ok v
      | _ => .error "Extra data"

/-- Lines 58-73, `create_configurations_shim`: the wrapped callback for the
patched `configurations update`.  `readFile` stands for `open(...).read()`.
If `--file` is truthy its content is JSON-decoded and forwarded as the
whole payload under `FROM_FILE_TAG` to the original update callback; else
if `--update-branches` is truthy the original patch callback runs; else a
plain `Exception` is raised. -/
def create_configurations_shim {α : Type}
    (update_callback patch_callback : String → Kwargs → α)
    (readFile : String → String) (configuration_id : String)
    (file update_branches : Opt) (kwargs : Kwargs) : Except PyErr α :=
  let file_name := file.value
  if file_name.truthy then
    match jsonLoads (readFile file_name.asStr) with
    | .ok data =>
        .ok (update_callback configuration_id
          (dictSet kwargs FROM_FILE_TAG ⟨FROM_FILE_TAG, data⟩))
    | .error msg => .error (.jsonDecodeError msg)
  else if update_branches.value.truthy then
    .ok (patch_callback configuration_id kwargs)
  else
    .error (.exn "Either --file or --update-branches must be set for updates")

/-- Lines 126-129, the loop inside `_targets_callback`'s inner `_cb`:
`for group, members in value: ... groups.append({...})`, each member token
split on commas and stripped. -/
def targetGroupsOf : List (String × String) → List PyVal → List PyVal
  | [], groups => groups
  | (group, members) :: rest, groups =>
      targetGroupsOf rest (groups ++
        [PyVal.dict
          [("name", .str group),
           ("members",
            .list ((pySplitCommas members).map fun m => PyVal.str (pyStrip m)))]])

/-- Wrapper applied to every parsed option value.  Modelled from the spec:
`_opt_callback` lives in `cray.generator`, outside this module; section 4.4
describes it as normalizing a parsed value into its `\x7bname, value\x7d`
wrapper keyed by the option's payload name. -/
def opt_callback (payload_name : String) (value : PyVal) : Opt :=
  ⟨payload_name, value⟩

/-- Lines 120-133, `_targets_callback` applied to `_opt_callback` (as on
line 139): the groups accumulated by the loop, handed to the wrapper. -/
def targets_callback (payload_name : String)
    (value : List (String × String)) : Opt :=
  opt_callback payload_name (.list (targetGroupsOf value []))

/-- Lines 165-169, the payload built by `create_sessions_shim`: the
non-`None` option values keyed by payload name, then
`payload['target'] = {'definition': ..., 'groups': ...}`. -/
def sessions_payload (target_definition target_group : Opt)
    (kwargs : Kwargs) : List (String × PyVal) :=
  dictSet (payloadOfKwargs kwargs) "target"
    (.dict [("definition", target_definition.value),
            ("groups", target_group.value)])

/-- Lines 162-174, `create_sessions_shim`: the wrapped `sessions create`
callback, forwarding the assembled payload under `FROM_FILE_TAG`. -/
def create_sessions_shim {α : Type} (func : Kwargs → α)
    (target_definition target_group : Opt) (kwargs : Kwargs) : α :=
  func (dictSet kwargs FROM_FILE_TAG
    ⟨FROM_FILE_TAG,
      .dict (sessions_payload target_definition target_group kwargs)⟩)

/-- Lines 186-188, the payload built by `create_components_shim`: the
non-`None` option values, and when `--state` is truthy its JSON-decoded
value under `state` (a decode failure propagates as the raised
`json.JSONDecodeError`). -/
def components_payload (state : Opt) (kwargs : Kwargs) :
    Except PyErr (List (String × PyVal)) :=
  let payload := payloadOfKwargs kwargs
  if state.value.truthy then
    match jsonLoads state.value.asStr with
    | .ok v => .ok (dictSet payload "state" v)
    | .error msg => .error (.jsonDecodeError msg)
  else .ok payload

/-- Lines 183-193, `create_components_shim`: the wrapped
`components update` callback; `component_id` passes through unchanged and
the payload travels under `FROM_FILE_TAG`. -/
def create_components_shim {α : Type} (func : String → Kwargs → α)
    (component_id : String) (state : Opt) (kwargs : Kwargs) :
    Except PyErr α :=
  match components_payload state kwargs with
  | .ok payload =>
      .ok (func component_id
        (dictSet kwargs FROM_FILE_TAG ⟨FROM_FILE_TAG, .dict payload⟩))
  | .error e => .error e

/-- Line 117, `del cli.commands['sessions'].commands['update']`, applied to
the sessions sub-command mapping. -/
def delete_sessions_update {α : Type} (sessionsCommands : List (String × α)) :
    Except PyErr (List (String × α)) :=
  pyDel sessionsCommands "update"

/-- Record of which original callback a configurations-shim invocation
reached, used to observe (non-)invocation in concrete runs. -/
inductive Call where
  | update : String → Kwargs → Call
  | patch : String → Kwargs → Call

/-! Association-list (Python dict) lemmas. -/

theorem dictGet_dictSet_self {α : Type} (d : List (String × α)) (k : String)
    (v : α) : dictGet (dictSet d k v) k = some v := by
  induction d with
  | nil => simp [dictSet, dictGet]
  | cons hd tl ih =>
      obtain ⟨k0, v0⟩ := hd
      by_cases hk : k0 = k
      · simp [dictSet, dictGet, hk]
      · simp [dictSet, dictGet, hk, ih]

theorem dictGet_dictSet_ne {α : Type} (d : List (String × α))
    (k k' : String) (v : α) (h : k' ≠ k) :
    dictGet (dictSet d k v) k' = dictGet d k' := by
  induction d with
  | nil => simp [dictSet, dictGet, Ne.symm h]
  | cons hd tl ih =>
      obtain ⟨k0, v0⟩ := hd
      by_cases hk : k0 = k
      · subst hk
        simp [dictSet, dictGet, Ne.symm h]
      · simp only [dictSet, if_neg hk]
        by_cases hk' : k0 = k'
        · simp [dictGet, hk']
        · simp [dictGet, hk', ih]

theorem dictSet_eq_append {α : Type} (d : List (String × α)) (k : String)
    (v : α) (h : dictGet d k = Option.none) : dictSet d k v = d ++ [(k, v)] := by
  induction d with
  | nil => simp [dictSet]
  | cons hd tl ih =>
      obtain ⟨k0, v0⟩ := hd
      by_cases hk : k0 = k
      · simp [dictGet, hk] at h
      · simp only [dictGet, if_neg hk] at h
        simp [dictSet, hk, ih h]

theorem dictGet_append_right {α : Type} (a b : List (String × α))
    (k : String) (h : dictGet a k = Option.none) :
    dictGet (a ++ b) k = dictGet b k := by
  induction a with
  | nil => simp
  | cons hd tl ih =>
      obtain ⟨k0, v0⟩ := hd
      by_cases hk : k0 = k
      · simp [dictGet, hk] at h
      · simp only [dictGet, if_neg hk] at h
        simpa [dictGet, hk] using ih h

theorem dictGet_dictRemove_self {α : Type} (d : List (String × α))
    (k : String) : dictGet (dictRemove d k) k = Option.none := by
  induction d with
  | nil => simp [dictRemove, dictGet]
  | cons hd tl ih =>
      obtain ⟨k0, v0⟩ := hd
      by_cases hk : k0 = k
      · simpa [dictRemove, hk] using ih
      · simpa [dictRemove, dictGet, hk] using ih

/-! Lemmas about the payload comprehension. -/

theorem foldl_payloadStep_get_none (kwargs : List (String × Opt)) :
    ∀ (acc : List (String × PyVal)) (k : String),
    dictGet acc k = Option.none →
    (∀ p ∈ kwargs, (Prod.snd p).name ≠ k) →
    dictGet (List.foldl payloadStep acc kwargs) k = Option.none := by
  induction kwargs with
  | nil => intro acc k h _; simpa using h
  | cons p rest ih =>
      intro acc k h hall
      simp only [List.foldl_cons]
      apply ih
      · unfold payloadStep
        by_cases hn : (Prod.snd p).value.isNone = true
        · simpa [hn] using h
        · rw [if_neg hn,
            dictGet_dictSet_ne _ _ _ _
              (fun hc => hall p (List.mem_cons_self p rest) hc.symm)]
          exact h
      · intro q hq; exact hall q (List.mem_cons_of_mem _ hq)

theorem foldl_payloadStep_all_none (kwargs : List (String × Opt)) :
    ∀ (acc : List (String × PyVal)),
    (∀ p ∈ kwargs, (Prod.snd p).value.isNone = true) →
    List.foldl payloadStep acc kwargs = acc := by
  induction kwargs with
  | nil => intro acc _; rfl
  | cons p rest ih =>
      intro acc hall
      simp only [List.foldl_cons]
      rw [payloadStep, if_pos (hall p (List.mem_cons_self p rest))]
      exact ih acc fun q hq => hall q (List.mem_cons_of_mem _ hq)

theorem foldl_payloadStep_eq (kwargs : List (String × Opt)) :
    ∀ (acc : List (String × PyVal)),
    (∀ p ∈ kwargs, dictGet acc (Prod.snd p).name = Option.none) →
    List.Nodup (kwargs.map fun p => (Prod.snd p).name) →
    List.foldl payloadStep acc kwargs =
      acc ++ (kwargs.filter fun p => !(Prod.snd p).value.isNone).map
        (fun p => ((Prod.snd p).name, (Prod.snd p).value)) := by
  induction kwargs with
  | nil => intro acc _ _; simp
  | cons p rest ih =>
      intro acc hacc hnodup
      simp only [List.map_cons, List.nodup_cons, List.mem_map] at hnodup
      obtain ⟨hnotin, hnodup'⟩ := hnodup
      simp only [List.foldl_cons]
      by_cases hn : (Prod.snd p).value.isNone = true
      · rw [payloadStep, if_pos hn]
        rw [ih acc (fun q hq => hacc q (List.mem_cons_of_mem _ hq)) hnodup']
        simp [List.filter_cons, hn]
      · rw [payloadStep, if_neg hn,
          dictSet_eq_append _ _ _ (hacc p (List.mem_cons_self p rest))]
        rw [ih (acc ++ [((Prod.snd p).name, (Prod.snd p).value)])
            (fun q hq => by
              rw [dictGet_append_right _ _ _
                  (hacc q (List.mem_cons_of_mem _ hq))]
              simp only [dictGet]
              rw [if_neg fun hc => hnotin ⟨q, hq, Eq.symm hc⟩])
            hnodup']
        simp [List.filter_cons, hn, List.append_assoc]

/-- The loop of `_targets_callback` maps over the repetitions in order. -/
theorem targetGroupsOf_eq (value : List (String × String)) :
    ∀ (groups : List PyVal),
    targetGroupsOf value groups = groups ++ value.map
      (fun q => PyVal.dict
        [("name", .str (Prod.fst q)),
         ("members",
          .list ((pySplitCommas (Prod.snd q)).map
            fun m => PyVal.str (pyStrip m)))]) := by
  induction value with
  | nil => intro groups; simp [targetGroupsOf]
  | cons q rest ih =>
      intro groups
      obtain ⟨group, members⟩ := q
      rw [targetGroupsOf, ih]
      simp [List.append_assoc]

/-! Claim theorems. -/

/-- C1 counterexample: supplying both `--file` (a nonempty path whose
content is valid JSON) and `--update-branches` does not produce a usage
error; the original update callback is invoked with the file payload, so
the claim that both options together fail with a usage error and invoke
neither path is false on the code. -/
theorem C1_counterexample :
    create_configurations_shim Call.update Call.patch (fun _ => "[]") "cfg1"
      ⟨"file", .str "cfg.json"⟩ ⟨"update_branches", .bool true⟩ [] =
    .ok (Call.update "cfg1"
      [(FROM_FILE_TAG, ⟨FROM_FILE_TAG, .list []⟩)]) := rfl

/-- C1 (amended): when both `--file` and `--update-branches` are supplied,
no usage error is raised; `--file` takes precedence, the original update
callback is invoked with the file's JSON payload under `FROM_FILE_TAG`,
and the patch callback is not invoked (the result is the update
callback's, for every choice of the two callbacks). -/
theorem C1_both_options_file_precedence {α : Type}
    (update_callback patch_callback : String → Kwargs → α)
    (readFile : String → String) (configuration_id path : String)
    (file update_branches : Opt) (kwargs : Kwargs) (data : PyVal)
    (hfile : file.value = .str path) (hpath : path ≠ "")
    (_hub : update_branches.value.truthy = true)
    (hjson : jsonLoads (readFile path) = .ok data) :
    create_configurations_shim update_callback patch_callback readFile
      configuration_id file update_branches kwargs =
    .ok (update_callback configuration_id
      (dictSet kwargs FROM_FILE_TAG ⟨FROM_FILE_TAG, data⟩)) := by
  simp [create_configurations_shim, hfile, PyVal.truthy, hpath,
    PyVal.asStr, hjson]

/-- Witness for C1 (amended) at a concrete invocation with both options
set. -/
theorem C1_both_options_file_precedence_witness :
    create_configurations_shim Call.update Call.patch (fun _ => "[1]") "cfg2"
      ⟨"file", .str "a.json"⟩ ⟨"update_branches", .bool true⟩ [] =
    .ok (Call.update "cfg2"
      [(FROM_FILE_TAG, ⟨FROM_FILE_TAG, .list [.int 1]⟩)]) :=
  C1_both_options_file_precedence Call.update Call.patch (fun _ => "[1]")
    "cfg2" "a.json" ⟨"file", .str "a.json"⟩ ⟨"update_branches", .bool true⟩
    [] (.list [.int 1]) rfl (by decide) rfl rfl

/-- C2: each `--target-group` repetition `(group, members_csv)` is parsed
by splitting the member list on commas and stripping whitespace from each
token, producing the ordered list of name/members records, wrapped under
the option's payload name; in particular
`--target-group A m1,m2 --target-group B m3` parses to
`[\x7b"name":"A","members":["m1","m2"]\x7d, \x7b"name":"B","members":["m3"]\x7d]`. -/
theorem C2_target_group_parsing :
    (∀ (payload_name : String) (value : List (String × String)),
      targets_callback payload_name value =
        ⟨payload_name, .list (value.map fun q => PyVal.dict
          [("name", .str (Prod.fst q)),
           ("members", .list ((pySplitCommas (Prod.snd q)).map
              fun m => PyVal.str (pyStrip m)))])⟩)
    ∧ targets_callback "target-group" [("A", "m1,m2"), ("B", "m3")] =
        ⟨"target-group", .list
          [.dict [("name", .str "A"),
                  ("members", .list [.str "m1", .str "m2"])],
           .dict [("name", .str "B"),
                  ("members", .list [.str "m3"])]]⟩ := by
  constructor
  · intro payload_name value
    rw [targets_callback, opt_callback, targetGroupsOf_eq]
    simp
  · rfl

/-- C3: with both `--file` and `--update-branches` falsy (omitted), the
configurations shim raises the usage `Exception` and, for every choice of
the two wrapped callbacks, neither one's result is produced — no update
happens. -/
theorem C3_neither_option_usage_error {α : Type}
    (update_callback patch_callback : String → Kwargs → α)
    (readFile : String → String) (configuration_id : String)
    (file update_branches : Opt) (kwargs : Kwargs)
    (hfile : file.value.truthy = false)
    (hub : update_branches.value.truthy = false) :
    create_configurations_shim update_callback patch_callback readFile
      configuration_id file update_branches kwargs =
    .error (.exn "Either --file or --update-branches must be set for updates") := by
  simp [create_configurations_shim, hfile, hub]

/-- Witness for C3 at an invocation omitting both options. -/
theorem C3_neither_option_usage_error_witness :
    create_configurations_shim Call.update Call.patch (fun _ => "") "cfg3"
      ⟨"file", .none⟩ ⟨"update_branches", .bool false⟩ [] =
    .error (.exn "Either --file or --update-branches must be set for updates") :=
  C3_neither_option_usage_error Call.update Call.patch (fun _ => "") "cfg3"
    ⟨"file", .none⟩ ⟨"update_branches", .bool false⟩ [] rfl rfl

/-- C5: with `--file` naming a file whose content is valid JSON, the shim
forwards exactly the parsed document to the original update callback as
the payload under `FROM_FILE_TAG` — the payload is the parsed object
itself, merged with nothing. -/
theorem C5_file_payload_forwarded {α : Type}
    (update_callback patch_callback : String → Kwargs → α)
    (readFile : String → String) (configuration_id path content : String)
    (file update_branches : Opt) (kwargs : Kwargs) (data : PyVal)
    (hfile : file.value = .str path) (hpath : path ≠ "")
    (hread : readFile path = content)
    (hjson : jsonLoads content = .ok data) :
    create_configurations_shim update_callback patch_callback readFile
      configuration_id file update_branches kwargs =
      .ok (update_callback configuration_id
        (dictSet kwargs FROM_FILE_TAG ⟨FROM_FILE_TAG, data⟩))
    ∧ dictGet (dictSet kwargs FROM_FILE_TAG ⟨FROM_FILE_TAG, data⟩)
        FROM_FILE_TAG = some ⟨FROM_FILE_TAG, data⟩ := by
  constructor
  · simp [create_configurations_shim, hfile, PyVal.truthy, hpath,
      PyVal.asStr, hread, hjson]
  · exact dictGet_dictSet_self _ _ _

/-- Witness for C5: a configuration file containing `[]` is forwarded
verbatim, alongside an unrelated omitted option. -/
theorem C5_file_payload_forwarded_witness :
    create_configurations_shim Call.update Call.patch (fun _ => "[]") "cfg5"
      ⟨"file", .str "cfg.json"⟩ ⟨"update_branches", .bool false⟩
      [("name", ⟨"name", .none⟩)] =
      .ok (Call.update "cfg5"
        [("name", ⟨"name", .none⟩),
         (FROM_FILE_TAG, ⟨FROM_FILE_TAG, .list []⟩)])
    ∧ dictGet
        (dictSet ([("name", ⟨"name", .none⟩)] : Kwargs) FROM_FILE_TAG
          ⟨FROM_FILE_TAG, .list []⟩) FROM_FILE_TAG =
        some (⟨FROM_FILE_TAG, .list []⟩ : Opt) :=
  C5_file_payload_forwarded Call.update Call.patch (fun _ => "[]") "cfg5"
    "cfg.json" "[]" ⟨"file", .str "cfg.json"⟩
    ⟨"update_branches", .bool false⟩ [("name", ⟨"name", .none⟩)] (.list [])
    rfl (by decide) rfl rfl

/-- C4: the sessions-create payload is the non-`None` option values
flattened under their payload names (in order), followed by the `target`
object composed of the `--target-definition` value and the parsed
`--target-group` list; in particular
`--target-definition image --target-group g1 img123` yields `target` equal
to `\x7b"definition":"image","groups":[\x7b"name":"g1","members":["img123"]\x7d]\x7d`. -/
theorem C4_sessions_payload_shape :
    (∀ (target_definition target_group : Opt) (kwargs : Kwargs),
      List.Nodup (kwargs.map fun p => (Prod.snd p).name) →
      (∀ p ∈ kwargs, (Prod.snd p).name ≠ "target") →
      sessions_payload target_definition target_group kwargs =
        ((kwargs.filter fun p => !(Prod.snd p).value.isNone).map
          (fun p => ((Prod.snd p).name, (Prod.snd p).value))) ++
        [("target", .dict
          [("definition", target_definition.value),
           ("groups", target_group.value)])])
    ∧ sessions_payload ⟨"target_definition", .str "image"⟩
        (targets_callback "target-group" [("g1", "img123")])
        [("name", ⟨"name", .none⟩)] =
      [("target", .dict
        [("definition", .str "image"),
         ("groups", .list [.dict [("name", .str "g1"),
                                  ("members", .list [.str "img123"])]])])] := by
  constructor
  · intro target_definition target_group kwargs hnodup htarget
    have hpayload : payloadOfKwargs kwargs =
        (kwargs.filter fun p => !(Prod.snd p).value.isNone).map
          (fun p => ((Prod.snd p).name, (Prod.snd p).value)) := by
      rw [payloadOfKwargs,
        foldl_payloadStep_eq kwargs [] (fun p _ => rfl) hnodup]
      rfl
    have hfree : dictGet (payloadOfKwargs kwargs) "target" = Option.none :=
      foldl_payloadStep_get_none kwargs [] "target" rfl htarget
    rw [sessions_payload, dictSet_eq_append _ _ _ hfree, hpayload]
  · rfl

/-- Witness for C4 at a concrete invocation with one supplied and one
omitted extra option. -/
theorem C4_sessions_payload_shape_witness :
    sessions_payload ⟨"target_definition", .str "dynamic"⟩
      ⟨"target-group", .list []⟩
      [("limit", ⟨"limit", .str "10"⟩), ("name", ⟨"name", .none⟩)] =
    [("limit", .str "10"),
     ("target", .dict [("definition", .str "dynamic"),
                       ("groups", .list [])])] :=
  C4_sessions_payload_shape.1 ⟨"target_definition", .str "dynamic"⟩
    ⟨"target-group", .list []⟩
    [("limit", ⟨"limit", .str "10"⟩), ("name", ⟨"name", .none⟩)]
    (by decide) (by decide)

/-- C6: deleting the `update` key from the sessions sub-command mapping
succeeds whenever the generated mapping contains it, and afterwards the
key is absent, so the sub-action cannot be reached from this interface. -/
theorem C6_sessions_update_removed {α : Type}
    (sessionsCommands : List (String × α)) (c : α)
    (hin : dictGet sessionsCommands "update" = some c) :
    ∃ patched, delete_sessions_update sessionsCommands = .ok patched ∧
      dictGet patched "update" = Option.none := by
  refine ⟨dictRemove sessionsCommands "update", ?_,
    dictGet_dictRemove_self _ _⟩
  rw [delete_sessions_update, pyDel, hin]

/-- Witness for C6 on a mapping that contains `update`, as the generated
tree does. -/
theorem C6_sessions_update_removed_witness :
    ∃ patched,
      delete_sessions_update
        [("create", 0), ("delete", 1), ("describe", 2), ("list", 3),
         ("update", 4)] = .ok patched ∧
      dictGet patched "update" = Option.none :=
  C6_sessions_update_removed
    [("create", 0), ("delete", 1), ("describe", 2), ("list", 3),
     ("update", 4)] 4 rfl

/-- C7: `--state '[]'` puts `state ↦ []` into the components payload,
while an omitted `--state` (value `None`) leaves the payload without a
`state` key (the other options being the generated ones, none of which is
named `state`). -/
theorem C7_components_state_handling (state_name : String) (kwargs : Kwargs)
    (hstate : ∀ p ∈ kwargs, (Prod.snd p).name ≠ "state") :
    components_payload ⟨state_name, .str "[]"⟩ kwargs =
      .ok (payloadOfKwargs kwargs ++ [("state", .list [])])
    ∧ dictGet (payloadOfKwargs kwargs ++ [("state", .list [])]) "state" =
        some (.list [])
    ∧ components_payload ⟨state_name, .none⟩ kwargs =
        .ok (payloadOfKwargs kwargs)
    ∧ dictGet (payloadOfKwargs kwargs) "state" = Option.none := by
  have hnone : dictGet (payloadOfKwargs kwargs) "state" = Option.none :=
    foldl_payloadStep_get_none kwargs [] "state" rfl hstate
  have hloads : jsonLoads "[]" = .ok (.list []) := rfl
  refine ⟨?_, ?_, ?_, hnone⟩
  · simp [components_payload, PyVal.truthy, PyVal.asStr, hloads,
      dictSet_eq_append _ _ _ hnone]
  · rw [dictGet_append_right _ _ _ hnone]; rfl
  · simp [components_payload, PyVal.truthy]

/-- Witness for C7 with one supplied generated option. -/
theorem C7_components_state_handling_witness :
    components_payload ⟨"state", .str "[]"⟩
      [("enabled", ⟨"enabled", .bool true⟩)] =
      .ok (payloadOfKwargs [("enabled", ⟨"enabled", .bool true⟩)] ++
        [("state", .list [])])
    ∧ dictGet (payloadOfKwargs [("enabled", ⟨"enabled", .bool true⟩)] ++
        [("state", .list [])]) "state" = some (.list [])
    ∧ components_payload ⟨"state", .none⟩
        [("enabled", ⟨"enabled", .bool true⟩)] =
        .ok (payloadOfKwargs [("enabled", ⟨"enabled", .bool true⟩)])
    ∧ dictGet (payloadOfKwargs [("enabled", ⟨"enabled", .bool true⟩)])
        "state" = Option.none :=
  C7_components_state_handling "state"
    [("enabled", ⟨"enabled", .bool true⟩)] (by decide)

/-- C8: content handed to `--file`, or a value handed to `--state`, that
fails to decode as JSON makes the invocation abort with the underlying
decode error; for every choice of wrapped callback the result is that
error, so no payload is assembled or sent. -/
theorem C8_invalid_json_aborts :
    (∀ (α : Type) (update_callback patch_callback : String → Kwargs → α)
       (readFile : String → String) (configuration_id path msg : String)
       (file update_branches : Opt) (kwargs : Kwargs),
      file.value = .str path → path ≠ "" →
      jsonLoads (readFile path) = .error msg →
      create_configurations_shim update_callback patch_callback readFile
        configuration_id file update_branches kwargs =
        .error (.jsonDecodeError msg))
    ∧ (∀ (α : Type) (func : String → Kwargs → α)
         (component_id state_name s msg : String) (kwargs : Kwargs),
        s ≠ "" → jsonLoads s = .error msg →
        create_components_shim func component_id ⟨state_name, .str s⟩
          kwargs = .error (.jsonDecodeError msg)) := by
  constructor
  · intro α update_callback patch_callback readFile configuration_id path
      msg file update_branches kwargs hfile hpath hjson
    simp [create_configurations_shim, hfile, PyVal.truthy, hpath,
      PyVal.asStr, hjson]
  · intro α func component_id state_name s msg kwargs hs hjson
    simp [create_components_shim, components_payload, PyVal.truthy, hs,
      PyVal.asStr, hjson]

/-- Witness for C8: an unterminated array in `--file` and an unterminated
object in `--state`, each surfacing its decode error. -/
theorem C8_invalid_json_aborts_witness :
    create_configurations_shim Call.update Call.patch (fun _ => "[") "cfg8"
      ⟨"file", .str "bad.json"⟩ ⟨"update_branches", .bool false⟩ [] =
      .error (.jsonDecodeError "Expecting value")
    ∧ create_components_shim Call.update "comp8" ⟨"state", .str "\x7b"⟩ [] =
      .error (.jsonDecodeError
        "Expecting property name enclosed in double quotes") :=
  ⟨C8_invalid_json_aborts.1 Call Call.update Call.patch (fun _ => "[")
      "cfg8" "bad.json" "Expecting value" ⟨"file", .str "bad.json"⟩
      ⟨"update_branches", .bool false⟩ [] rfl (by decide) rfl,
   C8_invalid_json_aborts.2 Call Call.update "comp8" "state" "\x7b"
      "Expecting property name enclosed in double quotes" [] (by decide) rfl⟩

/-- C9: every sessions-create payload carries a `target` key holding the
definition value (possibly `None`) and the parsed groups value; when all
other option values are `None` the payload is exactly that single `target`
entry, the `None`-valued options being omitted. -/
theorem C9_target_always_present (target_definition target_group : Opt)
    (kwargs : Kwargs) :
    dictGet (sessions_payload target_definition target_group kwargs)
        "target" =
      some (.dict [("definition", target_definition.value),
                   ("groups", target_group.value)])
    ∧ ((∀ p ∈ kwargs, (Prod.snd p).value.isNone = true) →
       sessions_payload target_definition target_group kwargs =
         [("target", .dict [("definition", target_definition.value),
                            ("groups", target_group.value)])]) := by
  constructor
  · exact dictGet_dictSet_self _ _ _
  · intro hall
    rw [sessions_payload, payloadOfKwargs,
      foldl_payloadStep_all_none kwargs [] hall]
    rfl

/-- Witness for C9 at an invocation supplying no `--target-definition`, no
`--target-group` and no other option. -/
theorem C9_target_always_present_witness :
    dictGet
        (sessions_payload ⟨"target_definition", .none⟩
          ⟨"target-group", .list []⟩ [("name", ⟨"name", .none⟩)]) "target" =
      some (.dict [("definition", .none), ("groups", .list [])])
    ∧ sessions_payload ⟨"target_definition", .none⟩
        ⟨"target-group", .list []⟩ [("name", ⟨"name", .none⟩)] =
      [("target", .dict [("definition", .none), ("groups", .list [])])] :=
  ⟨(C9_target_always_present ⟨"target_definition", .none⟩
      ⟨"target-group", .list []⟩ [("name", ⟨"name", .none⟩)]).1,
   (C9_target_always_present ⟨"target_definition", .none⟩
      ⟨"target-group", .list []⟩ [("name", ⟨"name", .none⟩)]).2 (by decide)⟩

/-- C10: `--state` supplied as the empty string is falsy, so no JSON
decoding happens and no error arises: the shim behaves identically to an
omitted `--state`, and (the remaining options not being named `state`) the
payload has no `state` key. -/
theorem C10_empty_state_like_omitted :
    (∀ (α : Type) (func : String → Kwargs → α)
       (component_id state_name : String) (kwargs : Kwargs),
      create_components_shim func component_id ⟨state_name, .str ""⟩
          kwargs =
        create_components_shim func component_id ⟨state_name, .none⟩ kwargs)
    ∧ (∀ (state_name : String) (kwargs : Kwargs),
        components_payload ⟨state_name, .str ""⟩ kwargs =
          .ok (payloadOfKwargs kwargs))
    ∧ (∀ (kwargs : Kwargs),
        (∀ p ∈ kwargs, (Prod.snd p).name ≠ "state") →
        dictGet (payloadOfKwargs kwargs) "state" = Option.none) := by
  refine ⟨?_, ?_, ?_⟩
  · intro α func component_id state_name kwargs
    rfl
  · intro state_name kwargs
    simp [components_payload, PyVal.truthy]
  · intro kwargs h
    exact foldl_payloadStep_get_none kwargs [] "state" rfl h

/-- Witness for C10 at a concrete invocation with one supplied option. -/
theorem C10_empty_state_like_omitted_witness :
    create_components_shim Call.update "comp10" ⟨"state", .str ""⟩
        [("enabled", ⟨"enabled", .bool false⟩)] =
      create_components_shim Call.update "comp10" ⟨"state", .none⟩
        [("enabled", ⟨"enabled", .bool false⟩)]
    ∧ dictGet
        (payloadOfKwargs [("enabled", ⟨"enabled", .bool false⟩)]) "state" =
      Option.none :=
  ⟨C10_empty_state_like_omitted.1 Call Call.update "comp10" "state"
      [("enabled", ⟨"enabled", .bool false⟩)],
   C10_empty_state_like_omitted.2.2
      [("enabled", ⟨"enabled", .bool false⟩)] (by decide)⟩

end Cfs
